import Mathlib

/-!
# Verification of the game-client state-sync and viewport pipeline

A shallow embedding of `src/game.js` (class `GameClient`). JS numbers are
modelled as `Rat`; the JS `Map` objects (`players`, `avatars`, `avatarImages`)
are modelled as functions `String → Option _` with pointwise `set`/`delete`,
which matches `Map.get`/`Map.set`/`Map.delete` semantics (iteration order is
never relied on by the verified properties). Inbound message payloads carrying
JS objects (`data.players`, `data.avatars`) are modelled as entry lists in
`Object.entries` order; a JS object has no duplicate keys, so theorems about
them carry a `Nodup` hypothesis on the key list. DOM, console logging, and
asynchronous image loading are side effects outside the verified state and are
omitted; outbound `ws.send` calls are made explicit as a returned message list.
-/

/-- An entity (player) snapshot as carried in server messages: `id`, `username`,
world position `x`/`y`, `facing` string, `avatar` kind key, and an optional
`animationFrame` (the code reads it as `player.animationFrame || 0`). -/
structure Player where
  id : String
  username : String
  x : Rat
  y : Rat
  facing : String
  avatar : String
  animationFrame : Option Nat := none
deriving DecidableEq, Repr

/-- An appearance descriptor (actor kind): its `name` key and a mapping from
facing direction to the ordered list of frame image references
(`avatarData.frames`), modelled as an entry list. -/
structure Avatar where
  name : String
  frames : List (String × List String) := []
deriving DecidableEq, Repr

/-- A loaded sprite image: only its pixel dimensions matter to the renderer
(`avatarImage.width`, `avatarImage.height`). -/
structure Image where
  width : Rat
  height : Rat
deriving DecidableEq, Repr

/-- The mutable fields of the single `GameClient` instance that the verified
properties observe, with the constructor's initial values as defaults.
`canvasWidth`/`canvasHeight` are `canvas.width`/`canvas.height` (set from the
window size by `resizeCanvas`). -/
structure ClientState where
  worldWidth : Rat := 2048
  worldHeight : Rat := 2048
  connected : Bool := false
  myPlayerId : Option String := none
  myPlayer : Option Player := none
  players : String → Option Player := fun _ => none
  avatars : String → Option Avatar := fun _ => none
  viewportX : Rat := 0
  viewportY : Rat := 0
  canvasWidth : Rat
  canvasHeight : Rat
  needsRedraw : Bool := true
  isMoving : Bool := false
  isRunning : Bool := false
  pressedKeys : List String := []

/-- `this.avatarSize = 32` — the base avatar size, set once in the constructor. -/
def avatarSize : Rat := 32

/-- `Map.set`: rebind one key, leave the rest. -/
def mapSet {α : Type} (m : String → Option α) (k : String) (v : α) :
    String → Option α :=
  fun j => if j = k then some v else m j

/-- `Map.delete`: unbind one key, leave the rest. -/
def mapDelete {α : Type} (m : String → Option α) (k : String) :
    String → Option α :=
  fun j => if j = k then none else m j

/-- JS object property lookup `obj[key]` on an entry list. -/
def olookup {α : Type} (key : String) : List (String × α) → Option α
  | [] => none
  | (k, v) :: rest => if k = key then some v else olookup key rest

/-- The `for (const [k, v] of Object.entries(data)) map.set(k, v)` loop:
fold `mapSet` over the entries in order. -/
def mapSetAll {α : Type} (m : String → Option α) (entries : List (String × α)) :
    String → Option α :=
  entries.foldl (fun acc e => mapSet acc e.1 e.2) m

/-- `updateViewport` (game.js:398-412): if there is no tracked player, return
unchanged; otherwise center the viewport on the player
(`viewport = player - canvas/2`) and clamp each axis with
`Math.max(0, Math.min(v, worldDim - canvasDim))`. -/
def updateViewport (st : ClientState) : ClientState :=
  match st.myPlayer with
  | none => st
  | some p =>
    let centerX := st.canvasWidth / 2
    let centerY := st.canvasHeight / 2
    let vx := p.x - centerX
    let vy := p.y - centerY
    { st with
      viewportX := max 0 (min vx (st.worldWidth - st.canvasWidth)),
      viewportY := max 0 (min vy (st.worldHeight - st.canvasHeight)) }

/-- `worldToScreen` (game.js:414-420): translate by `-viewport.topLeft`. -/
def worldToScreen (st : ClientState) (worldX worldY : Rat) : Rat × Rat :=
  (worldX - st.viewportX, worldY - st.viewportY)

/-- `screenToWorld` (game.js:422-427): translate by `+viewport.topLeft`. -/
def screenToWorld (st : ClientState) (screenX screenY : Rat) : Rat × Rat :=
  (screenX + st.viewportX, screenY + st.viewportY)

/-- `handleJoinGame` (game.js:318-346): on success, record the assigned id,
alias `myPlayer` to `data.players[data.playerId]`, replace the `players` and
`avatars` maps wholesale from the payload, recompute the viewport and mark
dirty. On failure the state is untouched (the error is only logged).
Loading-screen updates and avatar-image loading are DOM/async effects outside
the modelled state. -/
def handleJoinGame (st : ClientState) (success : Bool) (playerId : String)
    (playersIn : List (String × Player)) (avatarsIn : List (String × Avatar)) :
    ClientState :=
  if success then
    let st1 := { st with
      myPlayerId := some playerId,
      myPlayer := olookup playerId playersIn,
      players := mapSetAll (fun _ => none) playersIn,
      avatars := mapSetAll (fun _ => none) avatarsIn }
    { updateViewport st1 with needsRedraw := true }
  else st

/-- `handlePlayersMoved` (game.js:348-353): upsert every entry of
`data.players` into the `players` map, then mark dirty. Note: no viewport
recompute and no refresh of the `myPlayer` alias — the map binding for the
tracked id is replaced by a fresh snapshot object, so `myPlayer` keeps
pointing at the pre-move object. -/
def handlePlayersMoved (st : ClientState) (playersIn : List (String × Player)) :
    ClientState :=
  { st with players := mapSetAll st.players playersIn, needsRedraw := true }

/-- `handlePlayerJoined` (game.js:355-360): bind the new player's id and
unconditionally bind the accompanying avatar descriptor under its name
(`this.avatars.set(data.avatar.name, data.avatar)`), then mark dirty.
Image loading is an async effect outside the modelled state. -/
def handlePlayerJoined (st : ClientState) (player : Player) (avatar : Avatar) :
    ClientState :=
  { st with
    players := mapSet st.players player.id player,
    avatars := mapSet st.avatars avatar.name avatar,
    needsRedraw := true }

/-- `handlePlayerLeft` (game.js:362-365): delete the id from `players`
(`Map.delete`, which is a no-op on an absent key), then mark dirty. -/
def handlePlayerLeft (st : ClientState) (playerId : String) : ClientState :=
  { st with players := mapDelete st.players playerId, needsRedraw := true }

/-- One pass of the `requestAnimationFrame` callback in `startRenderLoop`
(game.js:430-439): when the dirty flag is set, run `render()` (counted as one
redraw) and clear the flag; otherwise do nothing. Returns the new state and
the number of `render()` calls performed (0 or 1). -/
def renderTick (st : ClientState) : ClientState × Nat :=
  if st.needsRedraw then ({ st with needsRedraw := false }, 1) else (st, 0)

/-- The store mutations reachable from inbound network messages
(`handleMessage`, game.js:297-316). -/
inductive StoreMutation where
  | playersMoved (entries : List (String × Player))
  | playerJoined (player : Player) (avatar : Avatar)
  | playerLeft (playerId : String)

/-- Dispatch one store mutation to its handler. -/
def applyMutation (st : ClientState) : StoreMutation → ClientState
  | .playersMoved entries => handlePlayersMoved st entries
  | .playerJoined p a => handlePlayerJoined st p a
  | .playerLeft i => handlePlayerLeft st i

/-- A burst of store mutations arriving between two render ticks, applied in
arrival order. -/
def applyMutations (st : ClientState) (ms : List StoreMutation) : ClientState :=
  ms.foldl applyMutation st

/-- The outbound messages the client sends (`ws.send` payloads). -/
inductive OutMessage where
  | joinGame (username : String)
  | move (direction : String)
  | stop
deriving DecidableEq, Repr

/-- `joinGame` (game.js:163-173): bail out when not connected, otherwise send
one `join_game` message with the hard-coded username. The client state is not
modified either way. -/
def joinGame (st : ClientState) : ClientState × List OutMessage :=
  if st.connected then (st, [OutMessage.joinGame "Tim"]) else (st, [])

/-- `sendMoveCommand` (game.js:273-283): bail out when not connected,
otherwise send one `move` message. The client state is not modified. -/
def sendMoveCommand (st : ClientState) (direction : String) :
    ClientState × List OutMessage :=
  if st.connected then (st, [OutMessage.move direction]) else (st, [])

/-- `sendStopCommand` (game.js:285-294): bail out when not connected,
otherwise send one `stop` message. The client state is not modified. -/
def sendStopCommand (st : ClientState) : ClientState × List OutMessage :=
  if st.connected then (st, [OutMessage.stop]) else (st, [])

/-- `getMovementDirections` (game.js:262-271): build the held-direction list
in the fixed order up, down, left, right from the pressed-key set. -/
def getMovementDirections (pressedKeys : List String) : List String :=
  (if "ArrowUp" ∈ pressedKeys then ["up"] else []) ++
  (if "ArrowDown" ∈ pressedKeys then ["down"] else []) ++
  (if "ArrowLeft" ∈ pressedKeys then ["left"] else []) ++
  (if "ArrowRight" ∈ pressedKeys then ["right"] else [])

/-- The single movement intent transmitted per reduction. -/
inductive Intent where
  | move (direction : String)
  | stop
deriving DecidableEq, Repr

/-- The intent `updateMovement` transmits: `directions[0]` when the held list
is non-empty (game.js:232), `stop` when it is empty (game.js:242). -/
def reduceIntent (pressedKeys : List String) : Intent :=
  match getMovementDirections pressedKeys with
  | [] => Intent.stop
  | d :: _ => Intent.move d

/-- The `directionMap` object in `updatePlayerFacing` (game.js:251-256). -/
def directionMap (d : String) : Option String :=
  if d = "up" then some "north"
  else if d = "down" then some "south"
  else if d = "left" then some "west"
  else if d = "right" then some "east"
  else none

/-- `updatePlayerFacing` (game.js:247-260): bail out without a tracked player,
otherwise overwrite the tracked snapshot's facing through the `myPlayer`
reference and mark dirty. (In JS this writes through the object reference;
the `players`-map binding aliases the same object only until a later
`players.set` replaces it — no verified property observes the alias, so the
embedding updates `myPlayer` alone.) -/
def updatePlayerFacing (st : ClientState) (direction : String) : ClientState :=
  match st.myPlayer with
  | none => st
  | some p =>
    { st with
      myPlayer := some { p with facing := (directionMap direction).getD "undefined" },
      needsRedraw := true }

/-- `updateMovement` (game.js:227-245): reduce the held keys; on a non-empty
list send exactly one `move` for `directions[0]`, set `isMoving`, eagerly
update the tracked facing and recompute the viewport; on an empty list send
`stop` and clear `isMoving`. Returns the new state plus the outbound
messages. -/
def updateMovement (st : ClientState) : ClientState × List OutMessage :=
  match getMovementDirections st.pressedKeys with
  | d :: _ =>
    let sent := sendMoveCommand st d
    let st1 := { sent.1 with isMoving := true }
    let st2 := updatePlayerFacing st1 d
    (updateViewport st2, sent.2)
  | [] =>
    let sent := sendStopCommand st
    ({ sent.1 with isMoving := false }, sent.2)

/-- The sprite-cache key built in `loadAvatarImages`/`drawAvatar`:
`${avatarName}_${direction}_${frameIndex}`. -/
def imageKey (avatarName direction : String) (frameIndex : Nat) : String :=
  avatarName ++ "_" ++ direction ++ "_" ++ toString frameIndex

/-- One `ctx.drawImage` invocation recorded by `drawAvatar`: the resolved
image, whether `ctx.scale(-1, 1)` is in force, and the four positional
arguments passed to `drawImage`. -/
structure DrawImageCall where
  image : Image
  flipped : Bool
  dx : Rat
  dy : Rat
  dw : Rat
  dh : Rat
deriving DecidableEq, Repr

/-- `drawAvatar` (game.js:512-541): skip when the avatar descriptor or the
cached frame image is missing; otherwise fix the width to `avatarSize`, scale
height by the image's aspect ratio, center on the screen position, and for
`west` facing draw under `ctx.scale(-1, 1)` with x-argument
`-drawX - width`. -/
def drawAvatar (avatars : String → Option Avatar)
    (avatarImages : String → Option Image) (player : Player) (x y : Rat) :
    Option DrawImageCall :=
  match avatars player.avatar with
  | none => none
  | some _ =>
    let direction := player.facing
    let frameIndex := player.animationFrame.getD 0
    match avatarImages (imageKey player.avatar direction frameIndex) with
    | none => none
    | some avatarImage =>
      let aspectRatio := avatarImage.width / avatarImage.height
      let width := avatarSize
      let height := avatarSize / aspectRatio
      let drawX := x - width / 2
      let drawY := y - height / 2
      if direction = "west" then
        some { image := avatarImage, flipped := true,
               dx := -drawX - width, dy := drawY, dw := width, dh := height }
      else
        some { image := avatarImage, flipped := false,
               dx := drawX, dy := drawY, dw := width, dh := height }

/-- Left edge, on screen, of the destination rectangle of a draw call: under
`ctx.scale(-1, 1)` a drawn x-interval `[dx, dx + dw]` appears at
`[-(dx + dw), -dx]`. -/
def screenLeft (c : DrawImageCall) : Rat :=
  if c.flipped then -(c.dx + c.dw) else c.dx

/-- Right edge, on screen, of the destination rectangle of a draw call. -/
def screenRight (c : DrawImageCall) : Rat :=
  if c.flipped then -c.dx else c.dx + c.dw

/-! ## Helper lemmas about the map fold and the mutation burst -/

theorem mapSetAll_not_mem {α : Type} (m : String → Option α)
    (entries : List (String × α)) (k : String)
    (h : k ∉ entries.map Prod.fst) : mapSetAll m entries k = m k := by
  induction entries generalizing m with
  | nil => rfl
  | cons e t ih =>
    simp only [List.map_cons, List.mem_cons, not_or] at h
    simp only [mapSetAll, List.foldl_cons]
    rw [show List.foldl (fun acc e => mapSet acc e.1 e.2) (mapSet m e.1 e.2) t
          = mapSetAll (mapSet m e.1 e.2) t from rfl, ih _ h.2]
    simp [mapSet, h.1]

theorem mapSetAll_mem {α : Type} (m : String → Option α)
    (entries : List (String × α)) (hnd : (entries.map Prod.fst).Nodup)
    (k : String) (v : α) (hkv : (k, v) ∈ entries) :
    mapSetAll m entries k = some v := by
  induction entries generalizing m with
  | nil => cases hkv
  | cons e t ih =>
    obtain ⟨a, b⟩ := e
    simp only [List.map_cons, List.nodup_cons] at hnd
    simp only [mapSetAll, List.foldl_cons]
    rw [show List.foldl (fun acc e => mapSet acc e.1 e.2) (mapSet m a b) t
          = mapSetAll (mapSet m a b) t from rfl]
    rcases List.mem_cons.mp hkv with heq | hmem
    · injection heq with h1 h2
      subst h1; subst h2
      rw [mapSetAll_not_mem _ _ _ hnd.1]
      simp [mapSet]
    · exact ih _ hnd.2 hmem

theorem applyMutation_needsRedraw (st : ClientState) (m : StoreMutation) :
    (applyMutation st m).needsRedraw = true := by
  cases m <;> rfl

theorem applyMutations_needsRedraw (ms : List StoreMutation) (st : ClientState)
    (h : st.needsRedraw = true) :
    (applyMutations st ms).needsRedraw = true := by
  induction ms generalizing st with
  | nil => exact h
  | cons m t ih => exact ih _ (applyMutation_needsRedraw st m)

/-! ## Concrete fixtures for counterexamples and witnesses -/

/-- A fresh client whose canvas was sized to an 800×600 window. -/
def testClient : ClientState := { canvasWidth := 800, canvasHeight := 600 }

/-- The tracked player as delivered by a successful join, at world
(1024, 1024). -/
def p1Join : Player :=
  { id := "p1", username := "Tim", x := 1024, y := 1024,
    facing := "south", avatar := "fox" }

/-- The tracked player's next snapshot from a `players_moved` broadcast,
at world (1100, 1024). -/
def p1Moved : Player :=
  { id := "p1", username := "Tim", x := 1100, y := 1024,
    facing := "east", avatar := "fox" }

/-- The fox avatar descriptor delivered with the join. -/
def foxAvatar : Avatar :=
  { name := "fox", frames := [("south", ["fox_s0.png"])] }

/-- The client right after a successful join that established `p1` as the
tracked entity. -/
def joinedClient : ClientState :=
  handleJoinGame testClient true "p1" [("p1", p1Join)] [("fox", foxAvatar)]

/-- The joined client after a `players_moved` broadcast naming the tracked
id `p1`. -/
def movedClient : ClientState := handlePlayersMoved joinedClient [("p1", p1Moved)]

/-! ## Claim theorems -/

/-- C10: `worldToScreen` and `screenToWorld` are mutual inverses — both are
pure translations by the viewport top-left in opposite directions, so
composing them either way returns the original point. -/
theorem world_screen_inverse (st : ClientState) (x y : Rat) :
    screenToWorld st (worldToScreen st x y).1 (worldToScreen st x y).2 = (x, y) ∧
    worldToScreen st (screenToWorld st x y).1 (screenToWorld st x y).2 = (x, y) := by
  refine ⟨?_, ?_⟩ <;>
    simp only [worldToScreen, screenToWorld, Prod.mk.injEq] <;>
    exact ⟨by ring, by ring⟩

/-- C2: `updateViewport` sets each viewport axis to
`max 0 (min (position - output/2) (worldDim - outputDim))` — i.e. the centered
top-left clamped to `[0, worldDim - outputDim]` — collapsing to `0` whenever
`worldDim < outputDim`; for world 2048×2048 and output 800×600 a tracked
entity at (0,0) yields (0,0), at (2048,2048) yields (1248,1448), and at
(1024,1024) yields (624,724). -/
theorem viewport_clamp_spec :
    (∀ (st : ClientState) (p : Player), st.myPlayer = some p →
      (updateViewport st).viewportX
          = max 0 (min (p.x - st.canvasWidth / 2) (st.worldWidth - st.canvasWidth)) ∧
      (updateViewport st).viewportY
          = max 0 (min (p.y - st.canvasHeight / 2) (st.worldHeight - st.canvasHeight)) ∧
      (st.worldWidth < st.canvasWidth → (updateViewport st).viewportX = 0) ∧
      (st.worldHeight < st.canvasHeight → (updateViewport st).viewportY = 0)) ∧
    (updateViewport { testClient with myPlayer := some { p1Join with x := 0, y := 0 } }).viewportX = 0 ∧
    (updateViewport { testClient with myPlayer := some { p1Join with x := 0, y := 0 } }).viewportY = 0 ∧
    (updateViewport { testClient with myPlayer := some { p1Join with x := 2048, y := 2048 } }).viewportX = 1248 ∧
    (updateViewport { testClient with myPlayer := some { p1Join with x := 2048, y := 2048 } }).viewportY = 1448 ∧
    (updateViewport { testClient with myPlayer := some p1Join }).viewportX = 624 ∧
    (updateViewport { testClient with myPlayer := some p1Join }).viewportY = 724 := by
  have hcase : ∀ px py : Rat,
      (updateViewport { testClient with
          myPlayer := some { p1Join with x := px, y := py } }).viewportX
        = max 0 (min (px - 400) 1248) ∧
      (updateViewport { testClient with
          myPlayer := some { p1Join with x := px, y := py } }).viewportY
        = max 0 (min (py - 300) 1448) := by
    intro px py
    constructor <;> simp [updateViewport, testClient, p1Join] <;> norm_num
  refine ⟨?_, ?_, ?_, ?_, ?_, ?_, ?_⟩
  · intro st p h
    simp only [updateViewport, h]
    refine ⟨trivial, trivial, ?_, ?_⟩ <;> intro hlt
    · exact max_eq_left (le_trans (min_le_right _ _) (by linarith))
    · exact max_eq_left (le_trans (min_le_right _ _) (by linarith))
  · rw [(hcase 0 0).1]; norm_num [min_def, max_def]
  · rw [(hcase 0 0).2]; norm_num [min_def, max_def]
  · rw [(hcase 2048 2048).1]; norm_num [min_def, max_def]
  · rw [(hcase 2048 2048).2]; norm_num [min_def, max_def]
  · have := (hcase 1024 1024).1
    simp only [show ({ p1Join with x := 1024, y := 1024 } : Player) = p1Join by rfl] at this
    rw [this]; norm_num [min_def, max_def]
  · have := (hcase 1024 1024).2
    simp only [show ({ p1Join with x := 1024, y := 1024 } : Player) = p1Join by rfl] at this
    rw [this]; norm_num [min_def, max_def]

/-- C2 witness: the general clamp formula applied to the concrete joined
client tracking `p1Join` at (1024, 1024) evaluates to 624. -/
theorem viewport_clamp_spec_witness :
    (updateViewport { testClient with myPlayer := some p1Join }).viewportX = 624 :=
  ((viewport_clamp_spec.1 { testClient with myPlayer := some p1Join } p1Join rfl).1).trans
    (by norm_num [testClient, p1Join, min_def, max_def])

/-- C7: `handlePlayerLeft` (the store's `remove`) is idempotent and total —
removing the same id twice gives the same `players` map as removing it once,
and removing an absent id leaves the `players` map unchanged. -/
theorem remove_idempotent (st : ClientState) (i : String) :
    (handlePlayerLeft (handlePlayerLeft st i) i).players = (handlePlayerLeft st i).players ∧
    (st.players i = none → (handlePlayerLeft st i).players = st.players) := by
  constructor
  · funext j
    by_cases h : j = i <;> simp [handlePlayerLeft, mapDelete, h]
  · intro h
    funext j
    by_cases hj : j = i <;> simp [handlePlayerLeft, mapDelete, hj, h]

/-- C7 witness: removing the absent id `"ghost"` from the fresh client leaves
its `players` map unchanged. -/
theorem remove_idempotent_witness :
    (handlePlayerLeft testClient "ghost").players = testClient.players :=
  (remove_idempotent testClient "ghost").2 rfl

/-- C8: when `connected` is false, `sendMoveCommand`, `sendStopCommand` and
`joinGame` return the state unchanged and send nothing (silently dropped, not
queued); when `connected` is true each sends exactly one message, still
leaving the state unchanged. -/
theorem send_drop_or_single (st : ClientState) (direction : String) :
    (st.connected = false →
      sendMoveCommand st direction = (st, []) ∧
      sendStopCommand st = (st, []) ∧
      joinGame st = (st, [])) ∧
    (st.connected = true →
      sendMoveCommand st direction = (st, [OutMessage.move direction]) ∧
      sendStopCommand st = (st, [OutMessage.stop]) ∧
      joinGame st = (st, [OutMessage.joinGame "Tim"]) ∧
      (sendMoveCommand st direction).2.length = 1 ∧
      (sendStopCommand st).2.length = 1 ∧
      (joinGame st).2.length = 1) := by
  constructor <;> intro h <;>
    simp [sendMoveCommand, sendStopCommand, joinGame, h]

/-- A client whose transport is currently established. -/
def connectedClient : ClientState := { testClient with connected := true }

/-- C8 witness: a disconnected client drops a `move` send entirely; a
connected client sends exactly one message. -/
theorem send_drop_or_single_witness :
    sendMoveCommand testClient "up" = (testClient, []) ∧
    (sendMoveCommand connectedClient "up").2.length = 1 :=
  ⟨((send_drop_or_single testClient "up").1 rfl).1,
   ((send_drop_or_single connectedClient "up").2 rfl).2.2.2.1⟩

/-- C3: the intent reducer returns the first populated direction in the fixed
priority order up, down, left, right, and `stop` for an empty held set; each
`updateMovement` reduction transmits at most one message, and exactly one when
connected ({up, left} reduces to up, {left, down} reduces to down). -/
theorem intent_priority (keys : List String) (st : ClientState) :
    (reduceIntent keys =
      if "ArrowUp" ∈ keys then Intent.move "up"
      else if "ArrowDown" ∈ keys then Intent.move "down"
      else if "ArrowLeft" ∈ keys then Intent.move "left"
      else if "ArrowRight" ∈ keys then Intent.move "right"
      else Intent.stop) ∧
    reduceIntent ["ArrowUp", "ArrowLeft"] = Intent.move "up" ∧
    reduceIntent ["ArrowLeft", "ArrowDown"] = Intent.move "down" ∧
    reduceIntent [] = Intent.stop ∧
    (updateMovement st).2.length ≤ 1 ∧
    (st.connected = true → (updateMovement st).2.length = 1) := by
  refine ⟨?_, by decide, by decide, by decide, ?_, ?_⟩
  · by_cases h1 : "ArrowUp" ∈ keys <;>
      by_cases h2 : "ArrowDown" ∈ keys <;>
      by_cases h3 : "ArrowLeft" ∈ keys <;>
      by_cases h4 : "ArrowRight" ∈ keys <;>
      simp [reduceIntent, getMovementDirections, h1, h2, h3, h4]
  · rcases hd : getMovementDirections st.pressedKeys with _ | ⟨d, rest⟩ <;>
      by_cases hc : st.connected <;>
      simp [updateMovement, hd, sendMoveCommand, sendStopCommand, hc]
  · intro hc
    rcases hd : getMovementDirections st.pressedKeys with _ | ⟨d, rest⟩ <;>
      simp [updateMovement, hd, sendMoveCommand, sendStopCommand, hc]

/-- C3 witness: on a connected client holding ArrowLeft and ArrowDown, the
reduction transmits exactly one message. -/
theorem intent_priority_witness :
    (updateMovement { connectedClient with
        pressedKeys := ["ArrowLeft", "ArrowDown"] }).2.length = 1 :=
  (intent_priority [] { connectedClient with
      pressedKeys := ["ArrowLeft", "ArrowDown"] }).2.2.2.2.2 rfl

/-- C5: `handlePlayersMoved` (the store's `upsertMany`) binds every id named
in the incoming map to its incoming snapshot wholesale and leaves every id not
named in the map exactly as it was. -/
theorem upsert_completeness (st : ClientState) (entries : List (String × Player))
    (hnd : (entries.map Prod.fst).Nodup) :
    (∀ k v, (k, v) ∈ entries → (handlePlayersMoved st entries).players k = some v) ∧
    (∀ k, k ∉ entries.map Prod.fst →
      (handlePlayersMoved st entries).players k = st.players k) := by
  constructor
  · intro k v hkv
    exact mapSetAll_mem st.players entries hnd k v hkv
  · intro k hk
    exact mapSetAll_not_mem st.players entries k hk

/-- Entity snapshot `snapA` for the two-upsert scenario. -/
def snapA : Player :=
  { id := "A", username := "a", x := 1, y := 2, facing := "south", avatar := "fox" }

/-- Entity snapshot `snapB` for the two-upsert scenario. -/
def snapB : Player :=
  { id := "B", username := "b", x := 3, y := 4, facing := "north", avatar := "fox" }

/-- The replacement snapshot `snapA2` for id `A`. -/
def snapA2 : Player := { snapA with x := 5 }

/-- The client after `upsertMany({A: snapA, B: snapB})`. -/
def abClient : ClientState :=
  handlePlayersMoved testClient [("A", snapA), ("B", snapB)]

/-- The client after the subsequent `upsertMany({A: snapA2})`. -/
def abClient2 : ClientState := handlePlayersMoved abClient [("A", snapA2)]

/-- C5 witness: after `upsertMany({A: snapA, B: snapB})` then
`upsertMany({A: snapA2})`, `get(A) == snapA2` and `get(B) == snapB`. -/
theorem upsert_completeness_witness :
    abClient2.players "A" = some snapA2 ∧ abClient2.players "B" = some snapB :=
  ⟨(upsert_completeness abClient [("A", snapA2)] (by decide)).1 "A" snapA2
      (by simp),
   ((upsert_completeness abClient [("A", snapA2)] (by decide)).2 "B"
      (by decide)).trans
    ((upsert_completeness testClient [("A", snapA), ("B", snapB)] (by decide)).1
      "B" snapB (by simp))⟩

/-- A client with no pending redraw. -/
def idleClient : ClientState := { testClient with needsRedraw := false }

/-- C4 counterexample: `handlePlayersMoved` sets the dirty flag even when the
incoming entity set is empty, contradicting "an empty set does not mark it". -/
theorem empty_upsert_marks_dirty :
    ¬ ((handlePlayersMoved idleClient []).needsRedraw = false) := by decide

/-- C4 (amended): the render tick draws only when the dirty flag is set and
clears it after a draw, so any non-empty burst of store mutations between two
consecutive ticks produces exactly one redraw (and the following tick none);
`handlePlayersMoved` marks the dirty flag unconditionally, even for an empty
incoming entity set. -/
theorem dirty_flag_batching (st : ClientState) (ms : List StoreMutation)
    (entries : List (String × Player)) (hms : ms ≠ []) :
    (st.needsRedraw = false → renderTick st = (st, 0)) ∧
    (st.needsRedraw = true →
      (renderTick st).2 = 1 ∧ (renderTick st).1.needsRedraw = false) ∧
    (renderTick (applyMutations st ms)).2 = 1 ∧
    (renderTick (renderTick (applyMutations st ms)).1).2 = 0 ∧
    (handlePlayersMoved st entries).needsRedraw = true := by
  have hdirty : (applyMutations st ms).needsRedraw = true := by
    rcases ms with _ | ⟨m, t⟩
    · exact absurd rfl hms
    · exact applyMutations_needsRedraw t (applyMutation st m)
        (applyMutation_needsRedraw st m)
  refine ⟨?_, ?_, ?_, ?_, rfl⟩
  · intro h; simp [renderTick, h]
  · intro h; simp [renderTick, h]
  · simp [renderTick, hdirty]
  · simp [renderTick, hdirty]

/-- C4 witness: a burst of two mutations on a clean client is drawn exactly
once by the next tick. -/
theorem dirty_flag_batching_witness :
    (renderTick (applyMutations idleClient
        [StoreMutation.playersMoved [("p1", p1Moved)],
         StoreMutation.playerLeft "zz"])).2 = 1 :=
  (dirty_flag_batching idleClient
      [StoreMutation.playersMoved [("p1", p1Moved)],
       StoreMutation.playerLeft "zz"] [] (List.cons_ne_nil _ _)).2.2.1

/-- A second fox descriptor for the same kind key with different frames. -/
def foxAvatarB : Avatar :=
  { name := "fox", frames := [("south", ["fox_s0_v2.png"])] }

/-- A client that already stores `foxAvatar` under the kind key `"fox"`. -/
def foxClient : ClientState :=
  { testClient with avatars := mapSet (fun _ => none) "fox" foxAvatar }

/-- A joining player whose kind key `"fox"` is already present. -/
def anaPlayer : Player :=
  { id := "p9", username := "Ana", x := 10, y := 20,
    facing := "north", avatar := "fox" }

/-- C6 counterexample: a `player_joined` event carrying a descriptor for the
already-present kind `"fox"` does not leave the stored descriptor unchanged —
it is overwritten by the incoming one. -/
theorem descriptor_overwritten :
    ¬ ((handlePlayerJoined foxClient anaPlayer foxAvatarB).avatars "fox"
        = some foxAvatar) := by decide

/-- C6 (amended): `handlePlayerJoined` (the store's `upsertOne`) always binds
the accompanying descriptor under its kind key — replacing any existing
descriptor of that kind — while descriptors under other kind keys are left
unchanged. -/
theorem upsertOne_replaces_descriptor (st : ClientState) (p : Player)
    (a : Avatar) :
    (handlePlayerJoined st p a).avatars a.name = some a ∧
    (handlePlayerJoined st p a).players p.id = some p ∧
    (∀ k, k ≠ a.name → (handlePlayerJoined st p a).avatars k = st.avatars k) ∧
    (handlePlayerJoined st p a).needsRedraw = true := by
  refine ⟨?_, ?_, ?_, rfl⟩
  · simp [handlePlayerJoined, mapSet]
  · simp [handlePlayerJoined, mapSet]
  · intro k hk
    simp [handlePlayerJoined, mapSet, hk]

/-- C6 witness: for the concrete client already holding `foxAvatar`, the
incoming `foxAvatarB` replaces it, and the absent kind `"wolf"` is untouched. -/
theorem upsertOne_replaces_descriptor_witness :
    (handlePlayerJoined foxClient anaPlayer foxAvatarB).avatars "fox"
      = some foxAvatarB ∧
    (handlePlayerJoined foxClient anaPlayer foxAvatarB).avatars "wolf"
      = foxClient.avatars "wolf" :=
  ⟨(upsertOne_replaces_descriptor foxClient anaPlayer foxAvatarB).1,
   (upsertOne_replaces_descriptor foxClient anaPlayer foxAvatarB).2.2.1 "wolf"
     (by decide)⟩

/-- C1 counterexample: the join establishes `p1` tracked at (1024, 1024), so
the viewport is (624, 724). A subsequent `players_moved` naming `p1` at
(1100, 1024) updates the stored snapshot, but the viewport stays at 624 — not
the 700 a recompute centered on the updated snapshot would produce. No
viewport recompute fires on a bulk move. -/
theorem bulk_move_no_viewport_recompute :
    movedClient.players "p1" = some p1Moved ∧
    movedClient.viewportX = 624 ∧ movedClient.viewportY = 724 ∧
    (updateViewport { movedClient with myPlayer := some p1Moved }).viewportX
      = 700 ∧
    ¬ (movedClient.viewportX
        = (updateViewport
            { movedClient with myPlayer := some p1Moved }).viewportX) := by
  have h1 : movedClient.viewportX = 624 := by
    norm_num [movedClient, handlePlayersMoved, joinedClient, handleJoinGame,
      updateViewport, olookup, testClient, p1Join, min_def, max_def]
  have h2 : movedClient.viewportY = 724 := by
    norm_num [movedClient, handlePlayersMoved, joinedClient, handleJoinGame,
      updateViewport, olookup, testClient, p1Join, min_def, max_def]
  have h3 : (updateViewport
      { movedClient with myPlayer := some p1Moved }).viewportX = 700 := by
    norm_num [updateViewport, movedClient, handlePlayersMoved, joinedClient,
      handleJoinGame, olookup, testClient, p1Join, p1Moved, min_def, max_def]
  refine ⟨rfl, h1, h2, h3, ?_⟩
  rw [h1, h3]; norm_num

/-- C1 (amended): an inbound bulk move naming the tracked entity's id replaces
its stored snapshot wholesale and marks the dirty flag, so the next render
tick draws exactly once (and the tick after that not at all); but it triggers
no viewport recompute — the viewport and the stale `myPlayer` reference keep
their prior values. -/
theorem bulk_move_updates_store_one_redraw (st : ClientState)
    (entries : List (String × Player)) (k : String) (p : Player)
    (hnd : (entries.map Prod.fst).Nodup) (hkv : (k, p) ∈ entries) :
    (handlePlayersMoved st entries).players k = some p ∧
    (handlePlayersMoved st entries).needsRedraw = true ∧
    (renderTick (handlePlayersMoved st entries)).2 = 1 ∧
    (renderTick (renderTick (handlePlayersMoved st entries)).1).2 = 0 ∧
    (handlePlayersMoved st entries).viewportX = st.viewportX ∧
    (handlePlayersMoved st entries).viewportY = st.viewportY ∧
    (handlePlayersMoved st entries).myPlayer = st.myPlayer :=
  ⟨mapSetAll_mem st.players entries hnd k p hkv, rfl, rfl, rfl, rfl, rfl, rfl⟩

/-- C1 witness: the concrete bulk move for `p1` stores the new snapshot and
the next tick draws exactly once. -/
theorem bulk_move_updates_store_one_redraw_witness :
    movedClient.players "p1" = some p1Moved ∧ (renderTick movedClient).2 = 1 :=
  ⟨(bulk_move_updates_store_one_redraw joinedClient [("p1", p1Moved)] "p1"
      p1Moved (by decide) (by simp)).1,
   (bulk_move_updates_store_one_redraw joinedClient [("p1", p1Moved)] "p1"
      p1Moved (by decide) (by simp)).2.2.1⟩

/-- C9: two entities identical in every field except `facing` (west vs east),
whose sprite keys resolve to the same cached image, produce draw calls that
are horizontal mirrors of each other about the shared screen x-coordinate:
identical destination rectangle on screen (same edges, same `dy`/`dw`/`dh`),
same source image, with the west call flipped by `ctx.scale(-1, 1)`. -/
theorem west_mirror (catalog : String → Option Avatar)
    (cache : String → Option Image) (pE pW : Player) (x y : Rat)
    (img : Image) (av : Avatar)
    (hE : pE.facing = "east") (hW : pW = { pE with facing := "west" })
    (hav : catalog pE.avatar = some av)
    (hiE : cache (imageKey pE.avatar "east" (pE.animationFrame.getD 0)) = some img)
    (hiW : cache (imageKey pE.avatar "west" (pE.animationFrame.getD 0)) = some img) :
    ∃ cE cW,
      drawAvatar catalog cache pE x y = some cE ∧
      drawAvatar catalog cache pW x y = some cW ∧
      cE.flipped = false ∧ cW.flipped = true ∧ cW.image = cE.image ∧
      cW.dy = cE.dy ∧ cW.dw = cE.dw ∧ cW.dh = cE.dh ∧
      screenLeft cW = screenLeft cE ∧ screenRight cW = screenRight cE ∧
      screenLeft cW = 2 * x - screenRight cE ∧
      screenRight cW = 2 * x - screenLeft cE := by
  subst hW
  have hcE : drawAvatar catalog cache pE x y
      = some { image := img, flipped := false,
               dx := x - avatarSize / 2,
               dy := y - avatarSize / (img.width / img.height) / 2,
               dw := avatarSize,
               dh := avatarSize / (img.width / img.height) } := by
    simp [drawAvatar, hav, hE, hiE]
  have hcW : drawAvatar catalog cache { pE with facing := "west" } x y
      = some { image := img, flipped := true,
               dx := -(x - avatarSize / 2) - avatarSize,
               dy := y - avatarSize / (img.width / img.height) / 2,
               dw := avatarSize,
               dh := avatarSize / (img.width / img.height) } := by
    simp [drawAvatar, hav, hiW]
  refine ⟨_, _, hcE, hcW, rfl, rfl, rfl, rfl, rfl, rfl, ?_, ?_, ?_, ?_⟩ <;>
    simp [screenLeft, screenRight] <;> ring

/-- The catalog holding only the fox descriptor. -/
def foxCatalog : String → Option Avatar :=
  fun k => if k = "fox" then some foxAvatar else none

/-- A 32×48 fox frame image. -/
def foxImage : Image := { width := 32, height := 48 }

/-- A sprite cache resolving the fox east and west frame-0 keys to the same
image. -/
def spriteCache : String → Option Image :=
  fun k =>
    if k = "fox_east_0" then some foxImage
    else if k = "fox_west_0" then some foxImage
    else none

/-- C9 witness: the mirror relation at the concrete east-facing `p1Moved` and
its west-facing twin, drawn at screen (100, 200) from the fox catalog and
cache. -/
theorem west_mirror_witness :
    ∃ cE cW,
      drawAvatar foxCatalog spriteCache p1Moved 100 200 = some cE ∧
      drawAvatar foxCatalog spriteCache { p1Moved with facing := "west" } 100 200
        = some cW ∧
      cE.flipped = false ∧ cW.flipped = true ∧ cW.image = cE.image ∧
      cW.dy = cE.dy ∧ cW.dw = cE.dw ∧ cW.dh = cE.dh ∧
      screenLeft cW = screenLeft cE ∧ screenRight cW = screenRight cE ∧
      screenLeft cW = 2 * 100 - screenRight cE ∧
      screenRight cW = 2 * 100 - screenLeft cE :=
  west_mirror foxCatalog spriteCache p1Moved { p1Moved with facing := "west" }
    100 200 foxImage foxAvatar rfl rfl rfl rfl rfl
